import Mathlib

/-!
Shallow embedding of `src/src/utils/cameraScore.js`: the pure function
`calculateCameraScore` maps a camera track-settings record to a score
string, a label and an ordered detail list.  Numbers are modelled as
rationals.  The special values NaN and plus/minus Infinity, which in the
source arise only from the division `width / height`, are modelled
explicitly by the type `JNum`, together with JavaScript truthiness
(`0` and NaN are falsy, Infinity is truthy).  The `metrics` field of the
result record is a purely presentational string rendering of the inputs
and is not modelled; no verified property concerns it.
-/

namespace CameraScore

/-- JavaScript numeric value as it occurs in the ratio computation of the
source: a finite rational, NaN, or plus/minus Infinity.  Inputs to the
scoring function are finite; NaN and Infinity arise from `width / height`
when a field is absent (`undefined` coerces to NaN) or `height` is 0. -/
inductive JNum where
  | num : ℚ → JNum
  | nan : JNum
  | inf : JNum
  | negInf : JNum
deriving DecidableEq

/-- JavaScript truthiness of a number: 0 and NaN are falsy, every other
number, Infinity included, is truthy. -/
def JNum.truthy : JNum → Bool
  | .num q => decide (q ≠ 0)
  | .nan => false
  | .inf => true
  | .negInf => true

/-- JavaScript division `w / h` where either operand may be `undefined`
(an absent field).  `undefined` coerces to NaN, and every arithmetic
operation on NaN yields NaN; `w / 0` is Infinity for `w > 0`, minus
Infinity for `w < 0`, and NaN for `0 / 0`. -/
def jdiv : Option ℚ → Option ℚ → JNum
  | some w, some h =>
      if h = 0 then
        if 0 < w then .inf else if w < 0 then .negInf else .nan
      else .num (w / h)
  | _, _ => .nan

/-- Input record of `calculateCameraScore`; every field of a
`MediaTrackSettings` object may be absent. -/
structure CameraSettings where
  width : Option ℚ
  height : Option ℚ
  frameRate : Option ℚ
  aspectRatio : Option ℚ
deriving DecidableEq

/-- JavaScript `x || d` for an optional finite number `x`: absent and 0
are falsy, every other value is returned unchanged. -/
def orDefault (x : Option ℚ) (d : ℚ) : ℚ :=
  match x with
  | some v => if v = 0 then d else v
  | none => d

/-- Source line `const resolution = height || 0;`. -/
def resolutionOf (s : CameraSettings) : ℚ :=
  orDefault s.height 0

/-- Source line `const fps = frameRate || 30;`. -/
def fpsOf (s : CameraSettings) : ℚ :=
  orDefault s.frameRate 30

/-- Right part `(width / height) || 1.77` of the ratio chain. -/
def ratioFallback (s : CameraSettings) : JNum :=
  if (jdiv s.width s.height).truthy then jdiv s.width s.height else .num 1.77

/-- Source line `const ratio = aspectRatio || (width / height) || 1.77;`.
The source groups the chain as `(aspectRatio || (width / height)) || 1.77`;
since `||` is associative this equals `aspectRatio || ((width / height) || 1.77)`,
which is the grouping used here. -/
def ratioOf (s : CameraSettings) : JNum :=
  match s.aspectRatio with
  | some a => if a = 0 then ratioFallback s else .num a
  | none => ratioFallback s

/-- Source test `Math.abs(ratio - 1.77) < 0.1`: false on NaN (every
comparison with NaN is false) and on plus/minus Infinity (the absolute
difference is Infinity). -/
def isWidescreen : JNum → Bool
  | .num q => decide (|q - 1.77| < 0.1)
  | _ => false

/-- Resolution branch group: points added. -/
def resScore (r : ℚ) : ℚ :=
  if r ≥ 1080 then 5 else if r ≥ 720 then 3.5 else if r ≥ 480 then 2 else 1

/-- Resolution branch group: detail string pushed. -/
def resDetail (r : ℚ) : String :=
  if r ≥ 1080 then "High Definition (1080p+)"
  else if r ≥ 720 then "Standard HD (720p)"
  else if r ≥ 480 then "Standard Definition (480p)"
  else "Low Resolution"

/-- Frame-rate branch group: points added. -/
def fpsScore (f : ℚ) : ℚ :=
  if f ≥ 58 then 3 else if f ≥ 28 then 2 else 1

/-- Frame-rate branch group: detail string pushed. -/
def fpsDetail (f : ℚ) : String :=
  if f ≥ 58 then "Smooth Motion (60fps)"
  else if f ≥ 28 then "Standard Motion (30fps)"
  else "Low Frame Rate"

/-- Aspect-ratio branch group: points added. -/
def arScore (j : JNum) : ℚ :=
  if isWidescreen j then 1 else 0.5

/-- Aspect-ratio branch group: detail string pushed. -/
def arDetail (j : JNum) : String :=
  if isWidescreen j then "Widescreen (16:9)" else "Standard Aspect Ratio"

/-- Source test `resolution >= 1080 && fps >= 28` guarding the bonus. -/
def bonusApplies (s : CameraSettings) : Bool :=
  decide (resolutionOf s ≥ 1080) && decide (fpsOf s ≥ 28)

/-- Score accumulated by the four branch groups before clamping. -/
def rawScore (s : CameraSettings) : ℚ :=
  resScore (resolutionOf s) + fpsScore (fpsOf s) + arScore (ratioOf s)
    + (if bonusApplies s then 1 else 0)

/-- Source lines `score = Math.min(10, score); score = Math.max(1, score);`. -/
def clampedScore (s : CameraSettings) : ℚ :=
  max 1 (min 10 (rawScore s))

/-- Label block: `"Poor"` overwritten by the first matching threshold. -/
def labelOf (v : ℚ) : String :=
  if v ≥ 9 then "Excellent"
  else if v ≥ 7 then "Good"
  else if v ≥ 5 then "Average"
  else if v ≥ 3 then "Fair"
  else "Poor"

/-- JavaScript `x.toFixed(1)`, modelled as rounding `q * 10` to the
nearest integer (half up, computed as the floor of `q * 10 + 1/2` via
Euclidean division of numerator by denominator) and printing the two
parts.  Every score reachable here is a non-negative multiple of one
half, so the rounding and sign conventions never matter. -/
def toFixed1 (q : ℚ) : String :=
  toString (Int.ediv (Int.ediv (q * 10 + 1 / 2).num (q * 10 + 1 / 2).den) 10)
    ++ "." ++
    toString (Int.emod (Int.ediv (q * 10 + 1 / 2).num (q * 10 + 1 / 2).den) 10)

/-- Result record of `calculateCameraScore` (without the presentational
`metrics` field). -/
structure ScoreResult where
  score : String
  label : String
  details : List String
deriving DecidableEq

/-- The scoring function of `src/src/utils/cameraScore.js`. -/
def calculateCameraScore (s : CameraSettings) : ScoreResult :=
  { score := toFixed1 (clampedScore s)
    label := labelOf (clampedScore s)
    details :=
      [resDetail (resolutionOf s), fpsDetail (fpsOf s), arDetail (ratioOf s)]
        ++ (if bonusApplies s then ["Premium Quality Bonus"] else []) }

/-! ### Claim-side definitions for the score-composition claim

The first group renders the claim literally: the frame rate defaults to
30 only when the field is absent, and the ratio is `aspectRatio`
whenever that field is present.  The second group renders the amended
claim: the defaults also apply when the present value is 0, exactly as
the JavaScript `||` operator behaves. -/

/-- Resolution component, per the claim: 1, 2, 3.5 or 5 chosen by
comparing `height` against 480, 720 and 1080 (an absent height compares
below every threshold). -/
def specC1_resComponent (height : Option ℚ) : ℚ :=
  match height with
  | some h => if h ≥ 1080 then 5 else if h ≥ 720 then 3.5 else if h ≥ 480 then 2 else 1
  | none => 1

/-- Claim, literal reading: frameRate defaults to 30 only when absent. -/
def specLiteralC1_effectiveFrameRate (fr : Option ℚ) : ℚ :=
  fr.getD 30

/-- Frame-rate component from the literal effective frame rate. -/
def specLiteralC1_frameRateComponent (fr : Option ℚ) : ℚ :=
  if specLiteralC1_effectiveFrameRate fr ≥ 58 then 3
  else if specLiteralC1_effectiveFrameRate fr ≥ 28 then 2
  else 1

/-- Claim, literal reading: the ratio defaults to `aspectRatio` whenever
that field is present, else to `width / height` when that is usable,
else to 1.77. -/
def specLiteralC1_ratioValue (s : CameraSettings) : JNum :=
  match s.aspectRatio with
  | some a => JNum.num a
  | none =>
      if (jdiv s.width s.height).truthy then jdiv s.width s.height
      else JNum.num 1.77

/-- Aspect-ratio component: 1.0 when the ratio is within 0.1 of 1.77,
else 0.5 (NaN and infinite ratios fail the comparison). -/
def specLiteralC1_ratioComponent (s : CameraSettings) : ℚ :=
  match specLiteralC1_ratioValue s with
  | JNum.num q => if |q - 1.77| < 0.1 then 1 else 0.5
  | _ => 0.5

/-- Bonus, literal reading: +1 exactly when height is at least 1080 and
the literal effective frame rate is at least 28. -/
def specLiteralC1_bonus (s : CameraSettings) : ℚ :=
  match s.height with
  | some h => if h ≥ 1080 ∧ specLiteralC1_effectiveFrameRate s.frameRate ≥ 28 then 1 else 0
  | none => 0

/-- Total of the literal reading: the component sum clamped to both ends. -/
def specLiteralC1_total (s : CameraSettings) : ℚ :=
  min 10 (max 1 (specC1_resComponent s.height
    + specLiteralC1_frameRateComponent s.frameRate
    + specLiteralC1_ratioComponent s
    + specLiteralC1_bonus s))

/-- Amended claim: frameRate defaults to 30 when absent or zero. -/
def specAmendedC1_effectiveFrameRate (fr : Option ℚ) : ℚ :=
  match fr with
  | some f => if f = 0 then 30 else f
  | none => 30

/-- Frame-rate component from the amended effective frame rate. -/
def specAmendedC1_frameRateComponent (fr : Option ℚ) : ℚ :=
  if specAmendedC1_effectiveFrameRate fr ≥ 58 then 3
  else if specAmendedC1_effectiveFrameRate fr ≥ 28 then 2
  else 1

/-- Amended claim: the ratio is `aspectRatio` when present and nonzero,
else `width / height` when that is truthy (nonzero finite or infinite;
NaN and 0 are falsy), else 1.77. -/
def specAmendedC1_ratioValue (s : CameraSettings) : JNum :=
  match s.aspectRatio with
  | some a =>
      if a = 0 then
        if (jdiv s.width s.height).truthy then jdiv s.width s.height else JNum.num 1.77
      else JNum.num a
  | none =>
      if (jdiv s.width s.height).truthy then jdiv s.width s.height
      else JNum.num 1.77

/-- Aspect-ratio component of the amended claim. -/
def specAmendedC1_ratioComponent (s : CameraSettings) : ℚ :=
  match specAmendedC1_ratioValue s with
  | JNum.num q => if |q - 1.77| < 0.1 then 1 else 0.5
  | _ => 0.5

/-- Bonus of the amended claim: +1 exactly when height is at least 1080
and the amended effective frame rate is at least 28. -/
def specAmendedC1_bonus (s : CameraSettings) : ℚ :=
  match s.height with
  | some h => if h ≥ 1080 ∧ specAmendedC1_effectiveFrameRate s.frameRate ≥ 28 then 1 else 0
  | none => 0

/-- Total of the amended claim. -/
def specAmendedC1_total (s : CameraSettings) : ℚ :=
  min 10 (max 1 (specC1_resComponent s.height
    + specAmendedC1_frameRateComponent s.frameRate
    + specAmendedC1_ratioComponent s
    + specAmendedC1_bonus s))

/-! ### Sample inputs used by the concrete claims -/

/-- Example input of the spec: 640 by 480 at 30 fps. -/
def sampleVGA : CameraSettings := ⟨some 640, some 480, some 30, none⟩

/-- Example input of the spec: height 0 and frame rate 0, the rest absent. -/
def sampleZeroes : CameraSettings := ⟨none, some 0, some 0, none⟩

/-- Example input of the spec: the ideal 1920 by 1080 at 60 fps with
aspect ratio 1.777. -/
def sampleIdeal : CameraSettings := ⟨some 1920, some 1080, some 60, some 1.777⟩

/-- Full-HD input without a reported aspect ratio. -/
def sampleFullHD : CameraSettings := ⟨some 1920, some 1080, some 60, none⟩

/-- Input with height 0 and everything else absent. -/
def sampleZeroHeight : CameraSettings := ⟨none, some 0, none, none⟩

/-- Input with positive width, height 0 and no aspect ratio. -/
def sampleZeroHeightWide : CameraSettings := ⟨some 640, some 0, none, none⟩

/-- Input whose frame rate and aspect ratio are present but zero. -/
def sampleFalsy : CameraSettings := ⟨none, none, some 0, some 0⟩

/-! ### Helper lemmas -/

lemma one_le_resScore (r : ℚ) : 1 ≤ resScore r := by
  rw [resScore]; split_ifs <;> norm_num

lemma one_le_fpsScore (f : ℚ) : 1 ≤ fpsScore f := by
  rw [fpsScore]; split_ifs <;> norm_num

lemma half_le_arScore (j : JNum) : 1/2 ≤ arScore j := by
  rw [arScore]; split_ifs <;> norm_num

lemma five_halves_le_rawScore (s : CameraSettings) : 5/2 ≤ rawScore s := by
  rw [rawScore]
  have h1 := one_le_resScore (resolutionOf s)
  have h2 := one_le_fpsScore (fpsOf s)
  have h3 := half_le_arScore (ratioOf s)
  split_ifs <;> linarith

lemma clampedScore_eq_min (s : CameraSettings) : clampedScore s = min 10 (rawScore s) := by
  rw [clampedScore]
  exact max_eq_right (le_min (by norm_num) (le_trans (by norm_num) (five_halves_le_rawScore s)))

lemma toFixed1_fiveHalves : toFixed1 (5/2) = "2.5" := by
  rw [toFixed1]; norm_num; decide

lemma toFixed1_four : toFixed1 4 = "4.0" := by
  rw [toFixed1]; norm_num; decide

lemma toFixed1_nineHalves : toFixed1 (9/2) = "4.5" := by
  rw [toFixed1]; norm_num; decide

lemma toFixed1_ten : toFixed1 10 = "10.0" := by
  rw [toFixed1]; norm_num; decide

lemma resDetail_ne_bonus (r : ℚ) : resDetail r ≠ "Premium Quality Bonus" := by
  rw [resDetail]; split_ifs <;> decide

lemma fpsDetail_ne_bonus (f : ℚ) : fpsDetail f ≠ "Premium Quality Bonus" := by
  rw [fpsDetail]; split_ifs <;> decide

lemma arDetail_ne_bonus (j : JNum) : arDetail j ≠ "Premium Quality Bonus" := by
  rw [arDetail]; split_ifs <;> decide

lemma resDetail_mem (r : ℚ) :
    resDetail r ∈ ["High Definition (1080p+)", "Standard HD (720p)",
      "Standard Definition (480p)", "Low Resolution"] := by
  rw [resDetail]; split_ifs <;> simp

lemma fpsDetail_mem (f : ℚ) :
    fpsDetail f ∈ ["Smooth Motion (60fps)", "Standard Motion (30fps)", "Low Frame Rate"] := by
  rw [fpsDetail]; split_ifs <;> simp

lemma arDetail_mem (j : JNum) :
    arDetail j ∈ ["Widescreen (16:9)", "Standard Aspect Ratio"] := by
  rw [arDetail]; split_ifs <;> simp

lemma res1080_iff (s : CameraSettings) :
    1080 ≤ resolutionOf s ↔ ∃ hv, s.height = some hv ∧ 1080 ≤ hv := by
  cases hh : s.height with
  | none => simp [resolutionOf, orDefault, hh]
  | some h =>
      by_cases h0 : h = 0
      · subst h0; simp [resolutionOf, orDefault, hh]
      · simp [resolutionOf, orDefault, hh, h0]

lemma bonusApplies_iff (s : CameraSettings) :
    bonusApplies s = true ↔
      ((∃ hv, s.height = some hv ∧ 1080 ≤ hv) ∧ 28 ≤ fpsOf s) := by
  rw [bonusApplies]
  simp only [Bool.and_eq_true, decide_eq_true_eq, ge_iff_le]
  rw [res1080_iff]

lemma bonusMem_iff (s : CameraSettings) :
    "Premium Quality Bonus" ∈ (calculateCameraScore s).details ↔ bonusApplies s = true := by
  cases hb : bonusApplies s <;>
    simp [calculateCameraScore, hb, resDetail_ne_bonus, fpsDetail_ne_bonus, arDetail_ne_bonus,
      Ne.symm (resDetail_ne_bonus (resolutionOf s)),
      Ne.symm (fpsDetail_ne_bonus (fpsOf s)),
      Ne.symm (arDetail_ne_bonus (ratioOf s))]

/-! ### Evaluation lemmas for the sample inputs -/

lemma sampleVGA_res : resolutionOf sampleVGA = 480 := by
  norm_num [resolutionOf, orDefault, sampleVGA]

lemma sampleVGA_fps : fpsOf sampleVGA = 30 := by
  norm_num [fpsOf, orDefault, sampleVGA]

lemma sampleVGA_ratioValue : ratioOf sampleVGA = JNum.num (4/3) := by
  norm_num [ratioOf, ratioFallback, jdiv, JNum.truthy, sampleVGA]

lemma sampleVGA_bonus : bonusApplies sampleVGA = false := by
  rw [bonusApplies, sampleVGA_res, sampleVGA_fps]; norm_num

lemma sampleVGA_raw : rawScore sampleVGA = 9/2 := by
  rw [rawScore, sampleVGA_res, sampleVGA_fps, sampleVGA_ratioValue, sampleVGA_bonus]
  simp only [resScore, fpsScore, arScore, isWidescreen]
  norm_num [abs_lt]

lemma sampleVGA_clamped : clampedScore sampleVGA = 9/2 := by
  rw [clampedScore, sampleVGA_raw]; norm_num [max_def, min_def]

lemma sampleFalsy_score : (calculateCameraScore sampleFalsy).score = "4.0" := by
  have hres : resolutionOf sampleFalsy = 0 := by
    norm_num [resolutionOf, orDefault, sampleFalsy]
  have hfps : fpsOf sampleFalsy = 30 := by
    norm_num [fpsOf, orDefault, sampleFalsy]
  have hr : ratioOf sampleFalsy = JNum.num 1.77 := by
    norm_num [ratioOf, ratioFallback, jdiv, JNum.truthy, sampleFalsy]
  have hb : bonusApplies sampleFalsy = false := by
    rw [bonusApplies, hres, hfps]; norm_num
  have hraw : rawScore sampleFalsy = 4 := by
    rw [rawScore, hres, hfps, hr, hb]
    simp only [resScore, fpsScore, arScore, isWidescreen]
    norm_num [abs_lt]
  have hcl : clampedScore sampleFalsy = 4 := by
    rw [clampedScore, hraw]; norm_num [max_def, min_def]
  simp only [calculateCameraScore]
  rw [hcl, toFixed1_four]

/-! ### Claims -/

/-- C1 counterexample: at the input with frameRate 0 and aspectRatio 0
(the remaining fields absent) the function returns score "4.0" (the 0
frame rate is falsy and defaults to 30, and the 0 aspect ratio is falsy
and falls through to the 1.77 default), while the formula of the claim, which
defaults the frame rate only when absent and always uses a present
aspectRatio, totals 2.5. -/
theorem claimC1_counterexample :
    (calculateCameraScore sampleFalsy).score ≠ toFixed1 (specLiteralC1_total sampleFalsy) := by
  have hlit : specLiteralC1_total sampleFalsy = 5/2 := by
    have h1 : specC1_resComponent sampleFalsy.height = 1 := by
      norm_num [specC1_resComponent, sampleFalsy]
    have h2 : specLiteralC1_frameRateComponent sampleFalsy.frameRate = 1 := by
      norm_num [specLiteralC1_frameRateComponent, specLiteralC1_effectiveFrameRate, sampleFalsy]
    have h3 : specLiteralC1_ratioComponent sampleFalsy = 1/2 := by
      simp only [specLiteralC1_ratioComponent, specLiteralC1_ratioValue, sampleFalsy]
      norm_num [abs_lt]
    have h4 : specLiteralC1_bonus sampleFalsy = 0 := by
      norm_num [specLiteralC1_bonus, sampleFalsy]
    rw [specLiteralC1_total, h1, h2, h3, h4]
    norm_num [max_def, min_def]
  rw [sampleFalsy_score, hlit, toFixed1_fiveHalves]
  decide

lemma resComponent_eq (s : CameraSettings) :
    resScore (resolutionOf s) = specC1_resComponent s.height := by
  cases hh : s.height with
  | none => norm_num [resolutionOf, orDefault, hh, resScore, specC1_resComponent]
  | some h =>
      by_cases h0 : h = 0
      · subst h0
        norm_num [resolutionOf, orDefault, hh, resScore, specC1_resComponent]
      · simp [resolutionOf, orDefault, hh, h0, resScore, specC1_resComponent]

lemma fpsOf_eq_amended (s : CameraSettings) :
    fpsOf s = specAmendedC1_effectiveFrameRate s.frameRate := by
  cases hf : s.frameRate <;> simp [fpsOf, orDefault, hf, specAmendedC1_effectiveFrameRate]

lemma fpsComponent_eq (s : CameraSettings) :
    fpsScore (fpsOf s) = specAmendedC1_frameRateComponent s.frameRate := by
  rw [fpsOf_eq_amended, specAmendedC1_frameRateComponent, fpsScore]

lemma ratioValue_eq_amended (s : CameraSettings) :
    ratioOf s = specAmendedC1_ratioValue s := by
  cases ha : s.aspectRatio <;>
    simp [ratioOf, ratioFallback, ha, specAmendedC1_ratioValue]

lemma ratioComponent_eq (s : CameraSettings) :
    arScore (ratioOf s) = specAmendedC1_ratioComponent s := by
  rw [ratioValue_eq_amended, specAmendedC1_ratioComponent]
  cases hj : specAmendedC1_ratioValue s with
  | num q =>
      by_cases hq : |q - 1.77| < 0.1
      · simp [arScore, isWidescreen, hq]
      · simp [arScore, isWidescreen, hq]
  | nan => simp [arScore, isWidescreen]
  | inf => simp [arScore, isWidescreen]
  | negInf => simp [arScore, isWidescreen]

lemma bonus_eq_amended (s : CameraSettings) :
    (if bonusApplies s then (1:ℚ) else 0) = specAmendedC1_bonus s := by
  rw [bonusApplies]
  cases hh : s.height with
  | none =>
      have : resolutionOf s = 0 := by simp [resolutionOf, orDefault, hh]
      simp [this, specAmendedC1_bonus, hh]
  | some h =>
      by_cases h0 : h = 0
      · subst h0
        have : resolutionOf s = 0 := by simp [resolutionOf, orDefault, hh]
        simp [this, specAmendedC1_bonus, hh]
        norm_num
      · have hr : resolutionOf s = h := by simp [resolutionOf, orDefault, hh, h0]
        rw [hr]
        simp only [specAmendedC1_bonus, hh, ge_iff_le, ← fpsOf_eq_amended,
          Bool.and_eq_true, decide_eq_true_eq]

/-- C1 (amended): for every settings record the returned score string is
the component sum formatted to one decimal, where the resolution
component is 1, 2, 3.5 or 5 by the height thresholds 480, 720 and 1080,
the frame-rate component is 1, 2 or 3 by the thresholds 28 and 58 with
the frame rate defaulting to 30 when absent or zero, the aspect-ratio
component is 1.0 when the ratio is within 0.1 of 1.77 and 0.5 otherwise
(the ratio being aspectRatio when present and nonzero, else width/height
when truthy, else 1.77), plus a +1 bonus exactly when height is at least
1080 and the effective frame rate is at least 28, the sum clamped to the
interval from 1 to 10. -/
theorem claimC1_scoreFormula (s : CameraSettings) :
    (calculateCameraScore s).score = toFixed1 (specAmendedC1_total s) := by
  have htotal : clampedScore s = specAmendedC1_total s := by
    rw [clampedScore, specAmendedC1_total, rawScore,
      resComponent_eq, fpsComponent_eq, ratioComponent_eq, bonus_eq_amended,
      max_min_distrib_left]
    norm_num
  simp only [calculateCameraScore]
  rw [htotal]

/-- C2: for every settings record, zero, negative or absent fields
included, the clamped score lies in the closed interval from 1 to 10,
and the returned score string is that value formatted to one decimal. -/
theorem claimC2_scoreBounds (s : CameraSettings) :
    1 ≤ clampedScore s ∧ clampedScore s ≤ 10 ∧
      (calculateCameraScore s).score = toFixed1 (clampedScore s) := by
  refine ⟨?_, ?_, rfl⟩
  · rw [clampedScore]; exact le_max_left 1 _
  · rw [clampedScore]; exact max_le (by norm_num) (min_le_left _ _)

/-- C3 counterexample: on width 640, height 480, frame rate 30 the
returned label is not "Average" as the claim asserts (the total 4.5 is
below the Average threshold 5). -/
theorem claimC3_counterexample :
    (calculateCameraScore sampleVGA).label ≠ "Average" := by
  simp only [calculateCameraScore]
  rw [sampleVGA_clamped, labelOf]
  norm_num
  decide

/-- C3 (amended): on width 640, height 480, frame rate 30 the resolution
component is 2, the frame-rate component is 2, the aspect-ratio
component is 0.5 (640/480 = 4/3 is not within 0.1 of 1.77), the total is
4.5, and the returned label is "Fair". -/
theorem claimC3_vgaExample :
    resScore (resolutionOf sampleVGA) = 2 ∧
    fpsScore (fpsOf sampleVGA) = 2 ∧
    ratioOf sampleVGA = JNum.num (4/3) ∧
    arScore (ratioOf sampleVGA) = 1/2 ∧
    rawScore sampleVGA = 9/2 ∧
    calculateCameraScore sampleVGA =
      ⟨"4.5", "Fair",
        ["Standard Definition (480p)", "Standard Motion (30fps)",
          "Standard Aspect Ratio"]⟩ := by
  refine ⟨?_, ?_, sampleVGA_ratioValue, ?_, sampleVGA_raw, ?_⟩
  · rw [sampleVGA_res, resScore]; norm_num
  · rw [sampleVGA_fps, fpsScore]; norm_num
  · rw [sampleVGA_ratioValue]
    simp only [arScore, isWidescreen]
    norm_num [abs_lt]
  · simp only [calculateCameraScore]
    rw [sampleVGA_clamped, sampleVGA_res, sampleVGA_fps, sampleVGA_ratioValue,
      sampleVGA_bonus, toFixed1_nineHalves, labelOf]
    simp only [resDetail, fpsDetail, arDetail, isWidescreen]
    norm_num [abs_lt]

/-- C4 counterexample: with aspectRatio absent, height 0 and width
absent, width/height is NaN, yet the aspect-ratio component is 1 rather
than the claimed 0.5: NaN is falsy in JavaScript, so the ratio falls
back to 1.77 and takes the widescreen branch. -/
theorem claimC4_counterexample :
    jdiv sampleZeroHeight.width sampleZeroHeight.height = JNum.nan ∧
    ratioOf sampleZeroHeight = JNum.num 1.77 ∧
    arScore (ratioOf sampleZeroHeight) ≠ 1/2 := by
  have hd : jdiv sampleZeroHeight.width sampleZeroHeight.height = JNum.nan := by
    simp [sampleZeroHeight, jdiv]
  have hr : ratioOf sampleZeroHeight = JNum.num 1.77 := by
    simp [ratioOf, ratioFallback, sampleZeroHeight, jdiv, JNum.truthy]
  refine ⟨hd, hr, ?_⟩
  rw [hr]
  simp only [arScore, isWidescreen]
  norm_num [abs_lt]

/-- C4 (amended): with aspectRatio absent and height 0, width/height is
NaN exactly when width is 0 or absent; NaN is falsy, so in that case the
ratio falls back to the 1.77 default and the component is 1.0, while a
present nonzero width yields an infinite ratio, the widescreen
comparison fails, and the component is 0.5. -/
theorem claimC4_zeroHeightAspect (s : CameraSettings)
    (ha : s.aspectRatio = none) (hh : s.height = some 0) :
    ((s.width = none ∨ s.width = some 0) →
      jdiv s.width s.height = JNum.nan ∧
      ratioOf s = JNum.num 1.77 ∧
      arScore (ratioOf s) = 1) ∧
    (∀ w, s.width = some w → w ≠ 0 →
      jdiv s.width s.height ≠ JNum.nan ∧
      isWidescreen (ratioOf s) = false ∧
      arScore (ratioOf s) = 1/2) := by
  constructor
  · intro hw
    have hd : jdiv s.width s.height = JNum.nan := by
      rcases hw with hw | hw <;> simp [hw, hh, jdiv]
    have hr : ratioOf s = JNum.num 1.77 := by
      simp [ratioOf, ratioFallback, ha, hd, JNum.truthy]
    refine ⟨hd, hr, ?_⟩
    rw [hr]
    simp only [arScore, isWidescreen]
    norm_num [abs_lt]
  · intro w hw hwne
    have hd : jdiv s.width s.height = (if 0 < w then JNum.inf else JNum.negInf) := by
      rcases lt_or_gt_of_ne hwne with hlt | hgt
      · simp [hw, hh, jdiv, not_lt_of_gt hlt, hlt]
      · simp [hw, hh, jdiv, hgt]
    have hr : ratioOf s = (if 0 < w then JNum.inf else JNum.negInf) := by
      by_cases hs : 0 < w <;>
        simp [ratioOf, ratioFallback, ha, hd, JNum.truthy, hs]
    refine ⟨?_, ?_, ?_⟩
    · rw [hd]; by_cases hs : 0 < w <;> simp [hs]
    · rw [hr]; by_cases hs : 0 < w <;> simp [hs, isWidescreen]
    · rw [hr]; by_cases hs : 0 < w <;> simp [hs, arScore, isWidescreen] <;> norm_num

/-- C4 witness: at width 640, height 0, no aspect ratio, the division is
not NaN and the component is 0.5. -/
theorem claimC4_zeroHeightAspect_witness :
    jdiv sampleZeroHeightWide.width sampleZeroHeightWide.height ≠ JNum.nan ∧
    isWidescreen (ratioOf sampleZeroHeightWide) = false ∧
    arScore (ratioOf sampleZeroHeightWide) = 1/2 :=
  (claimC4_zeroHeightAspect sampleZeroHeightWide rfl rfl).2 640 rfl (by norm_num)

/-- C5: on height 0 and frame rate 0 the defaults apply: the frame rate
becomes 30 and scores 2 points, the resolution branch falls to "Low
Resolution" scoring 1 point, and the ratio falls back to the 1.77
default because width/height is NaN. -/
theorem claimC5_zeroDefaults :
    fpsOf sampleZeroes = 30 ∧
    fpsScore (fpsOf sampleZeroes) = 2 ∧
    resolutionOf sampleZeroes = 0 ∧
    resScore (resolutionOf sampleZeroes) = 1 ∧
    resDetail (resolutionOf sampleZeroes) = "Low Resolution" ∧
    jdiv sampleZeroes.width sampleZeroes.height = JNum.nan ∧
    ratioOf sampleZeroes = JNum.num 1.77 := by
  have hfps : fpsOf sampleZeroes = 30 := by
    norm_num [fpsOf, orDefault, sampleZeroes]
  have hres : resolutionOf sampleZeroes = 0 := by
    norm_num [resolutionOf, orDefault, sampleZeroes]
  refine ⟨hfps, ?_, hres, ?_, ?_, ?_, ?_⟩
  · rw [hfps, fpsScore]; norm_num
  · rw [hres, resScore]; norm_num
  · rw [hres, resDetail]; norm_num
  · simp [sampleZeroes, jdiv]
  · simp [ratioOf, ratioFallback, sampleZeroes, jdiv, JNum.truthy]

/-- C6: for every input the label is "Excellent" when the clamped score
is at least 9, "Good" when at least 7, "Average" when at least 5, "Fair"
when at least 3, and "Poor" otherwise, each boundary inclusive. -/
theorem claimC6_labelThresholds (s : CameraSettings) :
    (calculateCameraScore s).label =
      (if clampedScore s ≥ 9 then "Excellent"
       else if clampedScore s ≥ 7 then "Good"
       else if clampedScore s ≥ 5 then "Average"
       else if clampedScore s ≥ 3 then "Fair"
       else "Poor") := rfl

/-- C7: whenever height is at least 1080 and frameRate is at least 28,
the +1 Premium Quality Bonus is added to the score, its detail string is
emitted, and the resulting total is clamped to at most 10. -/
theorem claimC7_premiumBonus (s : CameraSettings) (h f : ℚ)
    (hh : s.height = some h) (hf : s.frameRate = some f)
    (h1 : 1080 ≤ h) (h2 : 28 ≤ f) :
    bonusApplies s = true ∧
    rawScore s = resScore h + fpsScore f + arScore (ratioOf s) + 1 ∧
    "Premium Quality Bonus" ∈ (calculateCameraScore s).details ∧
    clampedScore s ≤ 10 := by
  have hne : h ≠ 0 := by intro h0; rw [h0] at h1; norm_num at h1
  have hfne : f ≠ 0 := by intro h0; rw [h0] at h2; norm_num at h2
  have hres : resolutionOf s = h := by simp [resolutionOf, orDefault, hh, hne]
  have hfps : fpsOf s = f := by simp [fpsOf, orDefault, hf, hfne]
  have hb : bonusApplies s = true := by
    rw [bonusApplies, hres, hfps]
    simp only [Bool.and_eq_true, decide_eq_true_eq, ge_iff_le]
    exact ⟨h1, h2⟩
  refine ⟨hb, ?_, ?_, ?_⟩
  · rw [rawScore, hres, hfps, hb]; norm_num
  · rw [(bonusMem_iff s)]; exact hb
  · rw [clampedScore]; exact max_le (by norm_num) (min_le_left _ _)

/-- C7 witness: the full-HD sample at 60 fps receives the bonus and a
total of at most 10. -/
theorem claimC7_premiumBonus_witness :
    bonusApplies sampleFullHD = true ∧
    rawScore sampleFullHD =
      resScore 1080 + fpsScore 60 + arScore (ratioOf sampleFullHD) + 1 ∧
    "Premium Quality Bonus" ∈ (calculateCameraScore sampleFullHD).details ∧
    clampedScore sampleFullHD ≤ 10 :=
  claimC7_premiumBonus sampleFullHD 1080 60 rfl rfl (by norm_num) (by norm_num)

/-- C8: on width 1920, height 1080, frame rate 60 and aspect ratio 1.777
the function returns score "10.0" and label "Excellent". -/
theorem claimC8_idealSettings :
    (calculateCameraScore sampleIdeal).score = "10.0" ∧
    (calculateCameraScore sampleIdeal).label = "Excellent" := by
  have hres : resolutionOf sampleIdeal = 1080 := by
    norm_num [resolutionOf, orDefault, sampleIdeal]
  have hfps : fpsOf sampleIdeal = 60 := by
    norm_num [fpsOf, orDefault, sampleIdeal]
  have hr : ratioOf sampleIdeal = JNum.num 1.777 := by
    norm_num [ratioOf, sampleIdeal]
  have hb : bonusApplies sampleIdeal = true := by
    rw [bonusApplies, hres, hfps]; norm_num
  have hraw : rawScore sampleIdeal = 10 := by
    rw [rawScore, hres, hfps, hr, hb]
    simp only [resScore, fpsScore, arScore, isWidescreen]
    norm_num [abs_lt]
  have hcl : clampedScore sampleIdeal = 10 := by
    rw [clampedScore, hraw]; norm_num [max_def, min_def]
  constructor
  · simp only [calculateCameraScore]; rw [hcl, toFixed1_ten]
  · simp only [calculateCameraScore]; rw [hcl, labelOf]; norm_num

/-- C9: for every input the detail list is exactly one resolution entry,
one frame-rate entry and one aspect-ratio entry in that order, followed
by "Premium Quality Bonus" exactly when height is at least 1080 and the
effective frame rate is at least 28; its length is 3 or 4. -/
theorem claimC9_detailsShape (s : CameraSettings) :
    (calculateCameraScore s).details =
      [resDetail (resolutionOf s), fpsDetail (fpsOf s), arDetail (ratioOf s)]
        ++ (if bonusApplies s then ["Premium Quality Bonus"] else []) ∧
    resDetail (resolutionOf s) ∈ ["High Definition (1080p+)", "Standard HD (720p)",
      "Standard Definition (480p)", "Low Resolution"] ∧
    fpsDetail (fpsOf s) ∈ ["Smooth Motion (60fps)", "Standard Motion (30fps)",
      "Low Frame Rate"] ∧
    arDetail (ratioOf s) ∈ ["Widescreen (16:9)", "Standard Aspect Ratio"] ∧
    ("Premium Quality Bonus" ∈ (calculateCameraScore s).details ↔
      ((∃ hv, s.height = some hv ∧ 1080 ≤ hv) ∧ 28 ≤ fpsOf s)) ∧
    ((calculateCameraScore s).details.length = 3 ∨
      (calculateCameraScore s).details.length = 4) := by
  refine ⟨rfl, resDetail_mem _, fpsDetail_mem _, arDetail_mem _,
    (bonusMem_iff s).trans (bonusApplies_iff s), ?_⟩
  cases hb : bonusApplies s
  · left; simp [calculateCameraScore, hb]
  · right; simp [calculateCameraScore, hb]

/-- C10: for every input the pre-clamp score is at least 2.5 (the three
branch groups contribute at least 1, 1 and 0.5), so the floor clamp
never changes the value, and the returned score is the one-decimal
rendering of a value at least 2.5. -/
theorem claimC10_scoreFloor (s : CameraSettings) :
    5/2 ≤ rawScore s ∧
    clampedScore s = min 10 (rawScore s) ∧
    5/2 ≤ clampedScore s ∧
    (calculateCameraScore s).score = toFixed1 (clampedScore s) := by
  refine ⟨five_halves_le_rawScore s, clampedScore_eq_min s, ?_, rfl⟩
  rw [clampedScore_eq_min]
  exact le_min (by norm_num) (five_halves_le_rawScore s)

end CameraScore
